import Mathlib

/-!
Shallow embedding of the arbitrage execution engine: the opportunity
detector (src/strategy/mod.rs), the position sizer and execution
coordinator (the `Trader` defined in src/execution/mod.rs, the one
main.rs instantiates), the order-record construction
(src/execution/trader.rs's `execute_order`, whose claimed fields
coincide with the live `place_leg`), and the trading-readiness gate
(src/execution/clob_client.rs).  Prices and balances are modelled as ℚ
(the source uses rust_decimal exact decimals in the detector and f64 in
the trader); on-chain micro-USDC amounts are ℕ with explicit flooring at
the cast sites.  External effects (balance fetch, gate outcome, per-leg
signing and submission results, approval transactions) are supplied by
an explicit environment, and the coordinator / gate return the list of
externally visible actions they perform, in order.
-/

namespace ArbEngine

/-- Best bid / best ask for one outcome token (`TokenPrice` in
`src/domain/mod.rs`); `none` means no observable liquidity. -/
structure TokenPrice where
  token_id : String
  bid : Option ℚ
  ask : Option ℚ
deriving DecidableEq

/-- One market's pair of outcome quotes (`MarketData`). -/
structure MarketData where
  condition_id : String
  market_name : String
  up_token : Option TokenPrice
  down_token : Option TokenPrice
deriving DecidableEq

/-- Snapshot of both markets (`MarketSnapshot` in `src/monitor/mod.rs`;
the timestamp plays no role in detection and is omitted). -/
structure MarketSnapshot where
  eth_market : MarketData
  btc_market : MarketData
deriving DecidableEq

/-- A detected opportunity (`ArbitrageOpportunity` in `src/domain/mod.rs`). -/
structure ArbitrageOpportunity where
  eth_up_price : ℚ
  btc_down_price : ℚ
  total_cost : ℚ
  expected_profit : ℚ
  eth_up_token_id : String
  btc_down_token_id : String
  eth_condition_id : String
  btc_condition_id : String
deriving DecidableEq

/-- Threshold state of `ArbitrageDetector` (`src/strategy/mod.rs`),
fixed at construction. -/
structure ArbitrageDetector where
  min_profit_threshold : ℚ
  max_sum_threshold : ℚ
  min_reasonable_price : ℚ
  max_reasonable_price : ℚ
  min_total_cost : ℚ
deriving DecidableEq

/-- `ArbitrageDetector::new` on the default path (no environment-variable
overrides): `max_sum=0.99`, `min_reasonable=0.15`, `max_reasonable=0.95`,
`min_total=0.50`. -/
def ArbitrageDetector.new (min_profit_threshold : ℚ) : ArbitrageDetector :=
  { min_profit_threshold := min_profit_threshold
    max_sum_threshold := 99/100
    min_reasonable_price := 15/100
    max_reasonable_price := 95/100
    min_total_cost := 1/2 }

/-- `ArbitrageDetector::check_pair`: the five filters, applied in source
order, each returning `none` on failure. -/
def check_pair (d : ArbitrageDetector) (token_a token_b : TokenPrice)
    (eth_condition_id btc_condition_id : String) : Option ArbitrageOpportunity :=
  match token_a.ask, token_b.ask with
  | some price_a, some price_b =>
    let total_cost := price_a + price_b
    if price_a < d.min_reasonable_price ∧ price_b < d.min_reasonable_price then
      none
    else if price_a > d.max_reasonable_price ∧ price_b > d.max_reasonable_price then
      none
    else if total_cost < d.min_total_cost then
      none
    else if total_cost ≥ d.max_sum_threshold then
      none
    else
      let expected_profit := 1 - total_cost
      if expected_profit < d.min_profit_threshold then
        none
      else
        some { eth_condition_id := eth_condition_id
               btc_condition_id := btc_condition_id
               eth_up_token_id := token_a.token_id
               btc_down_token_id := token_b.token_id
               eth_up_price := price_a
               btc_down_price := price_b
               total_cost := total_cost
               expected_profit := expected_profit }
  | _, _ => none

/-- `ArbitrageDetector::detect_opportunities`: pairing 1 (ETH up, BTC
down) then pairing 2 (ETH down, BTC up); a pairing with a missing leg is
skipped. -/
def detect_opportunities (d : ArbitrageDetector) (snapshot : MarketSnapshot) :
    List ArbitrageOpportunity :=
  let opps1 :=
    match snapshot.eth_market.up_token, snapshot.btc_market.down_token with
    | some eth, some btc =>
      (check_pair d eth btc snapshot.eth_market.condition_id
        snapshot.btc_market.condition_id).toList
    | _, _ => []
  let opps2 :=
    match snapshot.eth_market.down_token, snapshot.btc_market.up_token with
    | some eth, some btc =>
      (check_pair d eth btc snapshot.eth_market.condition_id
        snapshot.btc_market.condition_id).toList
    | _, _ => []
  opps1 ++ opps2

/-- Result of pairing 1 alone (ETH up + BTC down). -/
def pair1_result (d : ArbitrageDetector) (snapshot : MarketSnapshot) :
    Option ArbitrageOpportunity :=
  match snapshot.eth_market.up_token, snapshot.btc_market.down_token with
  | some eth, some btc =>
    check_pair d eth btc snapshot.eth_market.condition_id
      snapshot.btc_market.condition_id
  | _, _ => none

/-- Result of pairing 2 alone (ETH down + BTC up). -/
def pair2_result (d : ArbitrageDetector) (snapshot : MarketSnapshot) :
    Option ArbitrageOpportunity :=
  match snapshot.eth_market.down_token, snapshot.btc_market.up_token with
  | some eth, some btc =>
    check_pair d eth btc snapshot.eth_market.condition_id
      snapshot.btc_market.condition_id
  | _, _ => none

/-- One detector invocation with the detector's state threaded through
explicitly: the Rust method takes `&self` (no mutation, no interior
mutability, no reads of ambient state inside the call), so an invocation
returns its result together with the unchanged detector state. -/
def detect_run (d : ArbitrageDetector) (snapshot : MarketSnapshot) :
    List ArbitrageOpportunity × ArbitrageDetector :=
  (detect_opportunities d snapshot, d)

/-- `TradeMode` (`src/config/trading.rs`). -/
inductive TradeMode
  | Fixed
  | Percentage
  | Dynamic
  | Free
deriving DecidableEq

/-- `PositionSizing` configuration (`src/config/trading.rs`). -/
structure PositionSizing where
  mode : TradeMode
  fixed_usdc : Option ℚ
  percentage : Option ℚ
  max_risk_percent : Option ℚ
deriving DecidableEq

/-- The `spend` computed inside the live `Trader::calculate_position_size`
(`src/execution/mod.rs`, the `Trader` that `main.rs` instantiates): the
quote-currency amount selected by the active sizing mode, before it is
converted into a unit count. -/
def position_spend (sizing : PositionSizing) (balance : ℚ)
    (opp : ArbitrageOpportunity) : ℚ :=
  match sizing.mode with
  | .Fixed => sizing.fixed_usdc.getD 0
  | .Percentage => balance * (sizing.percentage.getD 10 / 100)
  | .Dynamic =>
    min (balance * (1/100) * (1 + opp.expected_profit)) (balance * (25/100))
  | .Free => balance

/-- The live `Trader::calculate_position_size` (`src/execution/mod.rs`):
the unit count `(spend / cost).floor()`, with `cost` the opportunity's
total cost; the fractional remainder is discarded. -/
def calculate_position_size (sizing : PositionSizing) (balance : ℚ)
    (opp : ArbitrageOpportunity) : ℤ :=
  ⌊position_spend sizing balance opp / opp.total_cost⌋

/-- The Dynamic sizing formula as the specification states it:
`min(balance × 0.01 × (1 + expected_profit), balance × 0.25)`.  Written
from the spec's words, for comparison with `position_spend`. -/
def spec_dynamic_spend (balance expected_profit : ℚ) : ℚ :=
  min (balance * (1/100) * (1 + expected_profit)) (balance * (25/100))

/-- Order side (`Side` in `src/domain/order.rs`). -/
inductive Side
  | Buy
  | Sell
deriving DecidableEq

/-- A leg ready for execution (`PricedOrder` in `src/domain/order.rs`). -/
structure PricedOrder where
  token_id : String
  side : Side
  price : ℚ
  size_usdc : ℚ
deriving DecidableEq

/-- External outcomes seen by one run of the live
`Trader::execute_arbitrage` (`src/execution/mod.rs`): the balance
refresh result (`none` = fetch error, propagated as `Err`), whether
`ensure_trading_ready` succeeds, and, per leg, whether order
building/signing succeeds and whether the submission is accepted. -/
structure ExecEnv where
  balance_fetch : Option ℚ
  gate_ok : Bool
  sign1_ok : Bool
  submit1_ok : Bool
  sign2_ok : Bool
  submit2_ok : Bool
deriving DecidableEq

/-- Externally visible actions of one coordinator run, in order: the
readiness-gate invocation with its required micro-USDC amount, a leg's
signing attempt, and a leg's submission together with whether the
matching service accepted it (the acceptance is what the source logs). -/
inductive ExecEvent
  | gateCheck (required_usdc : ℕ)
  | signLeg (token_id : String)
  | submitLeg (token_id : String) (accepted : Bool)
deriving DecidableEq

/-- Whether an event is a leg submission. -/
def ExecEvent.isSubmit : ExecEvent → Bool
  | .submitLeg _ _ => true
  | _ => false

/-- Whether an event is a leg signing attempt. -/
def ExecEvent.isSign : ExecEvent → Bool
  | .signLeg _ => true
  | _ => false

/-- Overall result of `execute_arbitrage` (`Ok(())` or `Err`). -/
inductive ExecResult
  | ok
  | err
deriving DecidableEq

/-- Observable outcome of one coordinator run: the action trace and the
returned result. -/
structure ExecOutcome where
  events : List ExecEvent
  result : ExecResult
deriving DecidableEq

/-- The `(x * 1_000_000.0) as u128` conversion to on-chain micro-USDC:
truncation toward zero, with negatives saturating at 0. -/
def usdcMicro (q : ℚ) : ℕ := (q * 1000000).floor.toNat

/-- The live `Trader::place_leg` control flow: build and sign the leg's
order (the record itself is modelled by `execute_order`); a
building/signing failure is propagated as `Err` without submitting,
while the submission's outcome is caught by the `match` in the source
(logged on both arms) and the function returns `Ok` regardless of
acceptance. -/
def place_leg (token_id : String) (sign_ok accepted : Bool) :
    List ExecEvent × ExecResult :=
  if sign_ok then
    ([.signLeg token_id, .submitLeg token_id accepted], .ok)
  else
    ([.signLeg token_id], .err)

/-- The live `Trader::execute_arbitrage` (`src/execution/mod.rs`) as a
function of the external-outcome environment.  Mirrors the source
control flow: a balance refresh error propagates as `Err` with no
actions; `units ≤ 0` ⇒ `Ok` with no actions; `spend = units × cost`
below the $1 minimum ⇒ `Ok` with no actions; then
`ensure_trading_ready` for the full spend (covering both legs) in
micro-USDC, whose failure propagates as `Err`; then the ETH leg via
`place_leg`, whose `Err` (a signing failure) propagates immediately so
the BTC leg is never attempted; then the BTC leg, whose result is the
overall result. -/
def execute_arbitrage (sizing : PositionSizing) (env : ExecEnv)
    (opp : ArbitrageOpportunity) : ExecOutcome :=
  match env.balance_fetch with
  | none => ⟨[], .err⟩
  | some balance =>
    let units := calculate_position_size sizing balance opp
    if units ≤ 0 then ⟨[], .ok⟩
    else
      let spend := (units : ℚ) * opp.total_cost
      if spend < 1 then ⟨[], .ok⟩
      else
        let required := usdcMicro spend
        if env.gate_ok then
          match place_leg opp.eth_up_token_id env.sign1_ok env.submit1_ok with
          | (ev1, .err) => ⟨.gateCheck required :: ev1, .err⟩
          | (ev1, .ok) =>
            let leg2 := place_leg opp.btc_down_token_id env.sign2_ok env.submit2_ok
            ⟨.gateCheck required :: (ev1 ++ leg2.1), leg2.2⟩
        else
          ⟨[.gateCheck required], .err⟩

/-- `MIN_ALLOWANCE` in `src/execution/clob_client.rs`: $1 in 6-decimal
micro-USDC. -/
def MIN_ALLOWANCE : ℕ := 1000000

/-- On-chain state read by the readiness gate: proxy-wallet USDC balance
and spender allowance (micro-USDC), ERC-1155 operator approval, and
whether executable code exists at the proxy address. -/
structure ChainState where
  usdc_balance : ℕ
  allowance : ℕ
  erc1155_approved : Bool
  proxy_is_contract : Bool
deriving DecidableEq

/-- The distinct failures `ensure_trading_ready` can return. -/
inductive GateError
  | insufficientBalance (available required : ℕ)
  | safeAllowanceMissing
  | safeApprovalMissing
  | allowanceTxFailed
  | approvalTxFailed
deriving DecidableEq

/-- Failures whose message directs the operator to remediate manually in
the Polymarket UI (the Gnosis-Safe branch). -/
def GateError.isManual : GateError → Bool
  | .safeAllowanceMissing => true
  | .safeApprovalMissing => true
  | _ => false

/-- Chain interactions the gate performs, in order. -/
inductive ChainAction
  | readBalance
  | readCode
  | readAllowance
  | readApproval
  | approveUsdc
  | approveErc1155
deriving DecidableEq

/-- Sequencing of traced fallible steps: on error the trace so far is
kept and the continuation is not run. -/
def gateSeq (a : List ChainAction × Except GateError Unit)
    (b : Unit → List ChainAction × Except GateError Unit) :
    List ChainAction × Except GateError Unit :=
  match a with
  | (tr, .error e) => (tr, .error e)
  | (tr, .ok ()) =>
    let r := b ()
    (tr ++ r.1, r.2)

/-- `ClobClient::ensure_balance`: read the proxy's USDC balance and fail
with the insufficient-balance error when it is below the requirement. -/
def ensure_balance (st : ChainState) (required : ℕ) :
    List ChainAction × Except GateError Unit :=
  if st.usdc_balance < required then
    ([.readBalance], .error (.insufficientBalance st.usdc_balance required))
  else
    ([.readBalance], .ok ())

/-- `ClobClient::ensure_safe_checks` (contract-wallet branch): verify
allowance and operator approval, failing with a manual-remediation
message; no transaction is ever sent. -/
def ensure_safe_checks (st : ChainState) :
    List ChainAction × Except GateError Unit :=
  if st.allowance < MIN_ALLOWANCE then
    ([.readAllowance], .error .safeAllowanceMissing)
  else if st.erc1155_approved then
    ([.readAllowance, .readApproval], .ok ())
  else
    ([.readAllowance, .readApproval], .error .safeApprovalMissing)

/-- `ClobClient::ensure_usdc_allowance` (externally-owned branch): if the
allowance is already at least `MIN_ALLOWANCE`, succeed; otherwise send an
`approve(exchange, U256::MAX)` transaction and return its outcome - the
allowance is not re-read after the transaction. -/
def ensure_usdc_allowance (st : ChainState) (txOk : Bool) :
    List ChainAction × Except GateError Unit :=
  if MIN_ALLOWANCE ≤ st.allowance then
    ([.readAllowance], .ok ())
  else if txOk then
    ([.readAllowance, .approveUsdc], .ok ())
  else
    ([.readAllowance, .approveUsdc], .error .allowanceTxFailed)

/-- `ClobClient::ensure_erc1155_approval` (externally-owned branch):
analogous to the allowance step, with `setApprovalForAll`; the approval
is not re-read after the transaction. -/
def ensure_erc1155_approval (st : ChainState) (txOk : Bool) :
    List ChainAction × Except GateError Unit :=
  if st.erc1155_approved then
    ([.readApproval], .ok ())
  else if txOk then
    ([.readApproval, .approveErc1155], .ok ())
  else
    ([.readApproval, .approveErc1155], .error .approvalTxFailed)

/-- `ClobClient::ensure_trading_ready`: balance check, then a code probe
to classify the wallet, then either the contract-wallet checks or the
externally-owned remediation path.  `usdcTxOk` / `erc1155TxOk` say
whether the respective approval transaction, if sent, succeeds. -/
def ensure_trading_ready (st : ChainState) (usdcTxOk erc1155TxOk : Bool)
    (required : ℕ) : List ChainAction × Except GateError Unit :=
  gateSeq (ensure_balance st required) fun _ =>
    gateSeq ([.readCode], .ok ()) fun _ =>
      if st.proxy_is_contract then
        ensure_safe_checks st
      else
        gateSeq (ensure_usdc_allowance st usdcTxOk) fun _ =>
          ensure_erc1155_approval st erc1155TxOk

/-- The typed order record (`ClobOrder` in `src/wallet/signer.rs`);
addresses, the token id and the 256-bit word fields are modelled as ℕ
(the null address is 0). -/
structure ClobOrder where
  salt : ℕ
  maker : ℕ
  signer : ℕ
  taker : ℕ
  token_id : ℕ
  maker_amount : ℕ
  taker_amount : ℕ
  side : ℕ
  fee_rate_bps : ℕ
  nonce : ℕ
  expiration : ℕ
deriving DecidableEq

/-- The order record built by `Trader::execute_order` before signing, as
a function of the leg, the current unix time, and the two random draws
(`saltRand` for the salt, `nonceRand` for the nonce's sub-millisecond
part). -/
def execute_order (proxy_wallet signer_address : ℕ) (token_id : ℕ)
    (priced : PricedOrder) (now saltRand nonceRand : ℕ) : ClobOrder :=
  let nonce := now * 1000 + nonceRand % 1000
  let expiration := now + 3600
  let price_u := usdcMicro priced.price
  let size_u := usdcMicro priced.size_usdc
  let side : ℕ := match priced.side with
    | .Buy => 0
    | .Sell => 1
  let amounts :=
    if side = 0 then
      (price_u * size_u / 1000000, size_u)
    else
      (size_u, price_u * size_u / 1000000)
  { salt := saltRand
    maker := proxy_wallet
    signer := signer_address
    taker := 0
    token_id := token_id
    maker_amount := amounts.1
    taker_amount := amounts.2
    side := side
    fee_rate_bps := 0
    nonce := nonce
    expiration := expiration }

/-- A concrete opportunity used as test input throughout: asks 0.45 and
0.50, total cost 0.95, expected profit 0.05 (the spec's worked example). -/
def sample_opp : ArbitrageOpportunity :=
  { eth_up_price := 45/100
    btc_down_price := 1/2
    total_cost := 19/20
    expected_profit := 1/20
    eth_up_token_id := "eth-up-token"
    btc_down_token_id := "btc-down-token"
    eth_condition_id := "eth-cid"
    btc_condition_id := "btc-cid" }

/-- C1: under the Dynamic sizing policy the live sizer's computed spend
is exactly `min(balance × 0.01 × (1 + expected_profit), balance × 0.25)`
- the spec's formula, stated separately as `spec_dynamic_spend` - for
every balance and opportunity; in particular at balance 1000 and
expected profit 0.05 the spend is 10.5. -/
theorem dynamic_spend_matches_spec (fx pc mr : Option ℚ) (balance : ℚ)
    (opp : ArbitrageOpportunity) :
    position_spend ⟨.Dynamic, fx, pc, mr⟩ balance opp
      = spec_dynamic_spend balance opp.expected_profit
    ∧ position_spend ⟨.Dynamic, fx, pc, mr⟩ 1000 sample_opp = 21/2 := by
  constructor
  · rfl
  · norm_num [position_spend, sample_opp, min_def]

/-- C6: with default thresholds and min profit 0.02, the pairing with
asks 0.45 and 0.50 passes every filter: `check_pair` emits exactly the
opportunity with total cost 0.95 and expected profit 0.05, the full
detector returns exactly that one opportunity on a snapshot where only
this pairing is quoted, and the profit equals one minus the total cost. -/
theorem detector_worked_example :
    check_pair (ArbitrageDetector.new (2/100))
        ⟨"eth-up-token", none, some (45/100)⟩
        ⟨"btc-down-token", none, some (1/2)⟩
        "eth-cid" "btc-cid"
      = some sample_opp
    ∧ detect_opportunities (ArbitrageDetector.new (2/100))
        ⟨⟨"eth-cid", "ETH", some ⟨"eth-up-token", none, some (45/100)⟩, none⟩,
          ⟨"btc-cid", "BTC", none, some ⟨"btc-down-token", none, some (1/2)⟩⟩⟩
      = [sample_opp]
    ∧ sample_opp.total_cost = 19/20
    ∧ sample_opp.expected_profit = 1/20
    ∧ sample_opp.expected_profit = 1 - sample_opp.total_cost := by
  refine ⟨?_, ?_, ?_, ?_, ?_⟩ <;>
    norm_num [check_pair, detect_opportunities, ArbitrageDetector.new, sample_opp]

/-- C7: a pairing whose ask prices sum exactly to `max_sum_threshold` is
rejected - the comparison is `>=`, so equality yields no opportunity. -/
theorem max_sum_boundary_rejected (d : ArbitrageDetector)
    (token_a token_b : TokenPrice) (ca cb : String) (pa pb : ℚ)
    (ha : token_a.ask = some pa) (hb : token_b.ask = some pb)
    (hsum : pa + pb = d.max_sum_threshold) :
    check_pair d token_a token_b ca cb = none := by
  simp only [check_pair, ha, hb]
  have h4 : pa + pb ≥ d.max_sum_threshold := le_of_eq hsum.symm
  simp [h4]

/-- C7, instantiated: asks 0.49 and 0.50 sum to the default threshold
0.99 and are rejected. -/
theorem max_sum_boundary_rejected_witness :
    check_pair (ArbitrageDetector.new (2/100))
        ⟨"a", none, some (49/100)⟩ ⟨"b", none, some (1/2)⟩ "ca" "cb" = none :=
  max_sum_boundary_rejected (ArbitrageDetector.new (2/100))
    ⟨"a", none, some (49/100)⟩ ⟨"b", none, some (1/2)⟩ "ca" "cb"
    (49/100) (1/2) rfl rfl (by norm_num [ArbitrageDetector.new])

/-- C8: detection is the independent concatenation of the two pairings'
results, hence yields at most two opportunities, and a pairing in which
either leg is unquoted or lacks an ask price contributes nothing. -/
theorem detector_pairings_independent (d : ArbitrageDetector) (s : MarketSnapshot) :
    detect_opportunities d s
      = (pair1_result d s).toList ++ (pair2_result d s).toList
    ∧ (detect_opportunities d s).length ≤ 2
    ∧ (∀ eth btc, s.eth_market.up_token = some eth →
        s.btc_market.down_token = some btc →
        eth.ask = none ∨ btc.ask = none → pair1_result d s = none)
    ∧ (∀ eth btc, s.eth_market.down_token = some eth →
        s.btc_market.up_token = some btc →
        eth.ask = none ∨ btc.ask = none → pair2_result d s = none) := by
  have hsplit : detect_opportunities d s
      = (pair1_result d s).toList ++ (pair2_result d s).toList := by
    cases h1 : s.eth_market.up_token <;> cases h2 : s.btc_market.down_token <;>
      cases h3 : s.eth_market.down_token <;> cases h4 : s.btc_market.up_token <;>
      simp [detect_opportunities, pair1_result, pair2_result, h1, h2, h3, h4]
  refine ⟨hsplit, ?_, ?_, ?_⟩
  · rw [hsplit, List.length_append]
    cases pair1_result d s <;> cases pair2_result d s <;> simp
  · intro eth btc h1 h2 hask
    rcases hask with hask | hask <;>
      simp [pair1_result, h1, h2, check_pair, hask]
  · intro eth btc h1 h2 hask
    rcases hask with hask | hask <;>
      simp [pair2_result, h1, h2, check_pair, hask]

/-- C8, instantiated: on a snapshot whose only quoted pairing has both
asks absent, pairing 1 contributes nothing and the detector returns at
most two opportunities. -/
theorem detector_pairings_independent_witness :
    pair1_result (ArbitrageDetector.new (2/100))
        ⟨⟨"eth-cid", "ETH", some ⟨"eu", none, none⟩, none⟩,
          ⟨"btc-cid", "BTC", none, some ⟨"bd", none, none⟩⟩⟩ = none
    ∧ (detect_opportunities (ArbitrageDetector.new (2/100))
        ⟨⟨"eth-cid", "ETH", some ⟨"eu", none, none⟩, none⟩,
          ⟨"btc-cid", "BTC", none, some ⟨"bd", none, none⟩⟩⟩).length ≤ 2 :=
  ⟨(detector_pairings_independent (ArbitrageDetector.new (2/100)) _).2.2.1
      ⟨"eu", none, none⟩ ⟨"bd", none, none⟩ rfl rfl (Or.inl rfl),
    (detector_pairings_independent (ArbitrageDetector.new (2/100)) _).2.1⟩

/-- C10: one detector invocation returns its result together with an
unchanged detector state (the source method takes the detector by
shared reference and touches no other state), so running it twice on the
identical snapshot, threading the state through, yields identical
opportunity lists and leaves the detector as constructed. -/
theorem detector_idempotent (d : ArbitrageDetector) (s : MarketSnapshot) :
    (detect_run d s).1 = (detect_run (detect_run d s).2 s).1
    ∧ (detect_run (detect_run d s).2 s).2 = d
    ∧ detect_run d s = (detect_opportunities d s, d) :=
  ⟨rfl, rfl, rfl⟩

/-- C2: when the computed unit count is non-positive or the computed
spend `units × cost` is below the $1 minimum, the live coordinator
performs no external action at all - no gate call, no signing, no
submission - and returns `Ok`, a no-op success rather than an error. -/
theorem sub_minimum_skip_no_op (sizing : PositionSizing) (env : ExecEnv)
    (opp : ArbitrageOpportunity) (b : ℚ) (hb : env.balance_fetch = some b)
    (hsmall : calculate_position_size sizing b opp ≤ 0
      ∨ ((calculate_position_size sizing b opp : ℚ) * opp.total_cost) < 1) :
    execute_arbitrage sizing env opp = ⟨[], .ok⟩ := by
  rcases hsmall with h | h
  · simp [execute_arbitrage, hb, h]
  · by_cases h0 : calculate_position_size sizing b opp ≤ 0
    · simp [execute_arbitrage, hb, h0]
    · simp [execute_arbitrage, hb, h0, h]

/-- Helper evaluation: a fixed $0.50 budget against total cost 0.95
floors to 0 units. -/
theorem sub_minimum_zero_units :
    calculate_position_size ⟨.Fixed, some (1/2), none, none⟩ 100 sample_opp = 0 := by
  have harg : position_spend ⟨.Fixed, some (1/2), none, none⟩ 100 sample_opp
      / sample_opp.total_cost = 10/19 := by
    norm_num [position_spend, sample_opp]
  unfold calculate_position_size
  rw [harg, Int.floor_eq_zero_iff, Set.mem_Ico]
  constructor <;> norm_num

/-- C2, instantiated: a fixed $0.50 budget against total cost 0.95
floors to 0 units (the spec's sub-minimum example), and the coordinator
does nothing and returns `Ok`. -/
theorem sub_minimum_skip_no_op_witness :
    calculate_position_size ⟨.Fixed, some (1/2), none, none⟩ 100 sample_opp ≤ 0
    ∧ execute_arbitrage ⟨.Fixed, some (1/2), none, none⟩
        ⟨some 100, true, true, true, true, true⟩ sample_opp = ⟨[], .ok⟩ :=
  ⟨le_of_eq sub_minimum_zero_units,
    sub_minimum_skip_no_op ⟨.Fixed, some (1/2), none, none⟩
      ⟨some 100, true, true, true, true, true⟩ sample_opp 100 rfl
      (Or.inl (le_of_eq sub_minimum_zero_units))⟩

/-- Helper evaluation shared by the coordinator witnesses: a fixed $9.50
budget against total cost 0.95 floors to exactly 10 units. -/
theorem sample_fixed_units :
    calculate_position_size ⟨.Fixed, some (19/2), none, none⟩ 100 sample_opp = 10 := by
  have h : ((19:ℚ)/2) / (19/20) = 10 := by norm_num
  simp [calculate_position_size, position_spend, sample_opp, h]

/-- C3: whenever the coordinator performs any external action, the first
one is the readiness-gate invocation for the full committed spend
`units × total_cost` - the combined cost of both legs - in micro-USDC,
so the gate runs before any order is built, signed or submitted; and
when the gate fails nothing is signed, nothing is submitted, and the
opportunity is aborted with an error. -/
theorem gate_before_any_submission (sizing : PositionSizing) (env : ExecEnv)
    (opp : ArbitrageOpportunity) (b : ℚ) (hb : env.balance_fetch = some b) :
    ((execute_arbitrage sizing env opp).events ≠ [] →
      (execute_arbitrage sizing env opp).events.head?
        = some (.gateCheck (usdcMicro
            ((calculate_position_size sizing b opp : ℚ) * opp.total_cost))))
    ∧ (env.gate_ok = false →
        (execute_arbitrage sizing env opp).events.filter ExecEvent.isSubmit = []
        ∧ (execute_arbitrage sizing env opp).events.filter ExecEvent.isSign = []
        ∧ ((execute_arbitrage sizing env opp).events ≠ [] →
            (execute_arbitrage sizing env opp).result = .err)) := by
  by_cases h0 : calculate_position_size sizing b opp ≤ 0
  · simp [execute_arbitrage, hb, h0]
  · by_cases h1 : ((calculate_position_size sizing b opp : ℚ) * opp.total_cost) < 1
    · simp [execute_arbitrage, hb, h0, h1]
    · cases hg : env.gate_ok
      · simp [execute_arbitrage, hb, h0, h1, hg, List.filter,
          ExecEvent.isSubmit, ExecEvent.isSign]
      · cases hs1 : env.sign1_ok
        · simp [execute_arbitrage, hb, h0, h1, hg, hs1, place_leg]
        · cases hs2 : env.sign2_ok <;>
            simp [execute_arbitrage, hb, h0, h1, hg, hs1, hs2, place_leg]

/-- C3, instantiated: gate failure at balance 100 with a viable size ⇒
nothing signed and nothing submitted. -/
theorem gate_before_any_submission_witness :
    (execute_arbitrage ⟨.Fixed, some (19/2), none, none⟩
        ⟨some 100, false, true, true, true, true⟩ sample_opp).events.filter
      ExecEvent.isSubmit = []
    ∧ (execute_arbitrage ⟨.Fixed, some (19/2), none, none⟩
        ⟨some 100, false, true, true, true, true⟩ sample_opp).events.filter
      ExecEvent.isSign = [] :=
  ⟨((gate_before_any_submission ⟨.Fixed, some (19/2), none, none⟩
      ⟨some 100, false, true, true, true, true⟩ sample_opp 100 rfl).2 rfl).1,
    ((gate_before_any_submission ⟨.Fixed, some (19/2), none, none⟩
      ⟨some 100, false, true, true, true, true⟩ sample_opp 100 rfl).2 rfl).2.1⟩

/-- C4 counterexample: a leg-1 signing failure is propagated by the live
coordinator - after a successful gate check it signs leg 1, the failure
aborts the run with `Err`, and leg 2 is never attempted (the trace ends
at leg 1's signing attempt: no BTC-leg event exists and the overall
result is an error), contradicting "leg 2 is always attempted even if
leg 1 failed" and "a per-leg failure does not make the overall result an
error". -/
theorem leg1_sign_failure_counterexample :
    execute_arbitrage ⟨.Fixed, some (19/2), none, none⟩
        ⟨some 100, true, false, true, true, true⟩ sample_opp
      = ⟨[.gateCheck 9500000, .signLeg "eth-up-token"], .err⟩ := by
  have hu := sample_fixed_units
  have ht : sample_opp.total_cost = (19:ℚ)/20 := rfl
  have he : sample_opp.eth_up_token_id = "eth-up-token" := rfl
  norm_num [execute_arbitrage, hu, ht, he, place_leg, usdcMicro, Rat.floor_def']
  decide

/-- C4 amended: once the gate passes and leg 1 signs successfully, leg
1's submission outcome is recorded whatever it is, leg 2 is attempted
even if leg 1's submission was rejected, and when leg 2 also signs, its
submission outcome is recorded independently and the overall result is
`Ok` regardless of either submission's acceptance; only a signing
failure aborts the run with an error (leg 1's before leg 2 is
attempted). -/
theorem legs_isolated_after_signing (sizing : PositionSizing) (env : ExecEnv)
    (opp : ArbitrageOpportunity)
    (hne : (execute_arbitrage sizing env opp).events ≠ [])
    (hg : env.gate_ok = true) (hs1 : env.sign1_ok = true) :
    ExecEvent.submitLeg opp.eth_up_token_id env.submit1_ok
        ∈ (execute_arbitrage sizing env opp).events
    ∧ ExecEvent.signLeg opp.btc_down_token_id
        ∈ (execute_arbitrage sizing env opp).events
    ∧ (env.sign2_ok = true →
        ExecEvent.submitLeg opp.btc_down_token_id env.submit2_ok
            ∈ (execute_arbitrage sizing env opp).events
        ∧ (execute_arbitrage sizing env opp).result = .ok) := by
  cases hbf : env.balance_fetch with
  | none => simp [execute_arbitrage, hbf] at hne
  | some b =>
    by_cases h0 : calculate_position_size sizing b opp ≤ 0
    · simp [execute_arbitrage, hbf, h0] at hne
    · by_cases h1 : ((calculate_position_size sizing b opp : ℚ) * opp.total_cost) < 1
      · simp [execute_arbitrage, hbf, h0, h1] at hne
      · cases hs2 : env.sign2_ok <;>
          simp [execute_arbitrage, hbf, h0, h1, hg, hs1, hs2, place_leg]

/-- C4 amended, instantiated: leg 1's submission is rejected, yet its
outcome is recorded, leg 2 is still attempted, and the overall result is
`Ok`. -/
theorem legs_isolated_after_signing_witness :
    ExecEvent.submitLeg "eth-up-token" false
        ∈ (execute_arbitrage ⟨.Fixed, some (19/2), none, none⟩
            ⟨some 100, true, true, false, true, true⟩ sample_opp).events
    ∧ ExecEvent.signLeg "btc-down-token"
        ∈ (execute_arbitrage ⟨.Fixed, some (19/2), none, none⟩
            ⟨some 100, true, true, false, true, true⟩ sample_opp).events
    ∧ (execute_arbitrage ⟨.Fixed, some (19/2), none, none⟩
        ⟨some 100, true, true, false, true, true⟩ sample_opp).result = .ok :=
  ⟨(legs_isolated_after_signing ⟨.Fixed, some (19/2), none, none⟩
      ⟨some 100, true, true, false, true, true⟩ sample_opp
      (by
        have hu := sample_fixed_units
        have ht : sample_opp.total_cost = (19:ℚ)/20 := rfl
        norm_num [execute_arbitrage, hu, ht, place_leg]
        try exact List.cons_ne_nil _ _)
      rfl rfl).1,
    (legs_isolated_after_signing ⟨.Fixed, some (19/2), none, none⟩
      ⟨some 100, true, true, false, true, true⟩ sample_opp
      (by
        have hu := sample_fixed_units
        have ht : sample_opp.total_cost = (19:ℚ)/20 := rfl
        norm_num [execute_arbitrage, hu, ht, place_leg]
        try exact List.cons_ne_nil _ _)
      rfl rfl).2.1,
    ((legs_isolated_after_signing ⟨.Fixed, some (19/2), none, none⟩
      ⟨some 100, true, true, false, true, true⟩ sample_opp
      (by
        have hu := sample_fixed_units
        have ht : sample_opp.total_cost = (19:ℚ)/20 := rfl
        norm_num [execute_arbitrage, hu, ht, place_leg]
        try exact List.cons_ne_nil _ _)
      rfl rfl).2.2 rfl).2⟩

/-- C5 amended: the readiness gate reads the balance first and fails
with the insufficient-balance error (carrying available and required)
when the balance is short; for a contract-controlled wallet with a
sub-threshold allowance or missing operator approval it fails with a
manual-remediation reason and sends no approval transaction; for an
externally-owned wallet with a sub-threshold allowance it sends the
approval transaction and then proceeds without re-reading the allowance,
failing only if the transaction itself fails. -/
theorem readiness_gate_behavior (st : ChainState) (uTx eTx : Bool) (required : ℕ) :
    ((ensure_trading_ready st uTx eTx required).1.head? = some .readBalance)
    ∧ (st.usdc_balance < required →
        (ensure_trading_ready st uTx eTx required).2
          = .error (.insufficientBalance st.usdc_balance required))
    ∧ (required ≤ st.usdc_balance → st.proxy_is_contract = true →
        (st.allowance < MIN_ALLOWANCE ∨ st.erc1155_approved = false) →
        (∃ e, (ensure_trading_ready st uTx eTx required).2 = .error e
            ∧ e.isManual = true)
        ∧ ChainAction.approveUsdc ∉ (ensure_trading_ready st uTx eTx required).1
        ∧ ChainAction.approveErc1155 ∉ (ensure_trading_ready st uTx eTx required).1)
    ∧ (required ≤ st.usdc_balance → st.proxy_is_contract = false →
        st.allowance < MIN_ALLOWANCE →
        ChainAction.approveUsdc ∈ (ensure_trading_ready st uTx eTx required).1
        ∧ (uTx = false →
            (ensure_trading_ready st uTx eTx required).2 = .error .allowanceTxFailed)
        ∧ (uTx = true → st.erc1155_approved = true →
            (ensure_trading_ready st uTx eTx required).2 = .ok ())
        ∧ (uTx = true → st.erc1155_approved = false → eTx = true →
            (ensure_trading_ready st uTx eTx required).2 = .ok ())
        ∧ (uTx = true → st.erc1155_approved = false → eTx = false →
            (ensure_trading_ready st uTx eTx required).2
              = .error .approvalTxFailed)) := by
  refine ⟨?_, ?_, ?_, ?_⟩
  · by_cases hbal : st.usdc_balance < required <;>
      simp [ensure_trading_ready, ensure_balance, gateSeq, hbal]
  · intro hbal
    simp [ensure_trading_ready, ensure_balance, gateSeq, hbal]
  · intro hbal hpc hmiss
    have hbal' : ¬ st.usdc_balance < required := not_lt.mpr hbal
    rcases hmiss with hal | hap
    · simp [ensure_trading_ready, ensure_balance, ensure_safe_checks, gateSeq,
        hbal', hpc, hal, GateError.isManual]
    · by_cases hal : st.allowance < MIN_ALLOWANCE <;>
        simp [ensure_trading_ready, ensure_balance, ensure_safe_checks, gateSeq,
          hbal', hpc, hal, hap, GateError.isManual]
  · intro hbal hpc hal
    have hbal' : ¬ st.usdc_balance < required := not_lt.mpr hbal
    have hal' : ¬ MIN_ALLOWANCE ≤ st.allowance := not_le.mpr hal
    refine ⟨?_, ?_, ?_, ?_, ?_⟩
    · cases uTx <;> cases hap : st.erc1155_approved <;> cases eTx <;>
        simp [ensure_trading_ready, ensure_balance, ensure_usdc_allowance,
          ensure_erc1155_approval, gateSeq, hbal', hpc, hal', hap]
    · intro hu
      simp [ensure_trading_ready, ensure_balance, ensure_usdc_allowance,
        ensure_erc1155_approval, gateSeq, hbal', hpc, hal', hu]
    · intro hu hap
      simp [ensure_trading_ready, ensure_balance, ensure_usdc_allowance,
        ensure_erc1155_approval, gateSeq, hbal', hpc, hal', hu, hap]
    · intro hu hap he
      simp [ensure_trading_ready, ensure_balance, ensure_usdc_allowance,
        ensure_erc1155_approval, gateSeq, hbal', hpc, hal', hu, hap, he]
    · intro hu hap he
      simp [ensure_trading_ready, ensure_balance, ensure_usdc_allowance,
        ensure_erc1155_approval, gateSeq, hbal', hpc, hal', hu, hap, he]

/-- C5 amended, instantiated: a contract-controlled wallet with zero
allowance fails with a manual-remediation reason and no approval
transaction is sent. -/
theorem readiness_gate_behavior_witness :
    (∃ e, (ensure_trading_ready ⟨5000000, 0, false, true⟩ true true 2000000).2
        = .error e ∧ e.isManual = true)
    ∧ ChainAction.approveUsdc
        ∉ (ensure_trading_ready ⟨5000000, 0, false, true⟩ true true 2000000).1 :=
  ⟨((readiness_gate_behavior ⟨5000000, 0, false, true⟩ true true 2000000).2.2.1
      (by norm_num) rfl (Or.inl (by norm_num [MIN_ALLOWANCE]))).1,
    ((readiness_gate_behavior ⟨5000000, 0, false, true⟩ true true 2000000).2.2.1
      (by norm_num) rfl (Or.inl (by norm_num [MIN_ALLOWANCE]))).2.1⟩

/-- C5 counterexample to the re-verification clause: an externally-owned
wallet with zero allowance and no operator approval, whose approval
transactions succeed, passes the gate with the trace below - the
allowance and the approval are each read exactly once, before their
remediation transactions, and the final action is the second approval
transaction itself: no re-verification read of either follows the
remediation. -/
theorem readiness_gate_no_reverify_counterexample :
    ensure_trading_ready ⟨5000000, 0, false, false⟩ true true 2000000
      = ([.readBalance, .readCode, .readAllowance, .approveUsdc,
          .readApproval, .approveErc1155], .ok ())
    ∧ ((ensure_trading_ready ⟨5000000, 0, false, false⟩ true true 2000000).1.count
        .readAllowance) = 1
    ∧ ((ensure_trading_ready ⟨5000000, 0, false, false⟩ true true 2000000).1.count
        .readApproval) = 1
    ∧ (ensure_trading_ready ⟨5000000, 0, false, false⟩ true true 2000000).1.getLast?
      = some .approveErc1155 :=
  ⟨rfl, rfl, rfl, rfl⟩

/-- C9: the order record built for signing has taker 0 (the null
address), zero fee, side encoded 0 for a buy and 1 for a sell,
expiration equal to the current time plus 3600 seconds (a window within
300-3600 s), and for a buy the maker amount is price × size in
micro-quote-currency (truncated) while the taker amount is the size -
with the assignment swapped for a sell. -/
theorem order_record_fields (proxy_wallet signer_address token_id : ℕ)
    (now saltRand nonceRand : ℕ) (priced : PricedOrder) :
    (execute_order proxy_wallet signer_address token_id priced now saltRand
        nonceRand).taker = 0
    ∧ (execute_order proxy_wallet signer_address token_id priced now saltRand
        nonceRand).fee_rate_bps = 0
    ∧ (execute_order proxy_wallet signer_address token_id priced now saltRand
        nonceRand).expiration = now + 3600
    ∧ 300 ≤ (execute_order proxy_wallet signer_address token_id priced now saltRand
        nonceRand).expiration - now
    ∧ (execute_order proxy_wallet signer_address token_id priced now saltRand
        nonceRand).expiration - now ≤ 3600
    ∧ (priced.side = .Buy →
        (execute_order proxy_wallet signer_address token_id priced now saltRand
          nonceRand).side = 0
        ∧ (execute_order proxy_wallet signer_address token_id priced now saltRand
            nonceRand).maker_amount
          = usdcMicro priced.price * usdcMicro priced.size_usdc / 1000000
        ∧ (execute_order proxy_wallet signer_address token_id priced now saltRand
            nonceRand).taker_amount = usdcMicro priced.size_usdc)
    ∧ (priced.side = .Sell →
        (execute_order proxy_wallet signer_address token_id priced now saltRand
          nonceRand).side = 1
        ∧ (execute_order proxy_wallet signer_address token_id priced now saltRand
            nonceRand).maker_amount = usdcMicro priced.size_usdc
        ∧ (execute_order proxy_wallet signer_address token_id priced now saltRand
            nonceRand).taker_amount
          = usdcMicro priced.price * usdcMicro priced.size_usdc / 1000000) := by
  cases hs : priced.side <;>
    simp [execute_order, hs]

/-- C9, instantiated: a buy leg gets side 0 and taker 0. -/
theorem order_record_fields_witness :
    (execute_order 7 8 9 ⟨"tok", .Buy, 45/100, 5⟩ 1000 11 22).side = 0
    ∧ (execute_order 7 8 9 ⟨"tok", .Buy, 45/100, 5⟩ 1000 11 22).taker = 0 :=
  ⟨((order_record_fields 7 8 9 1000 11 22 ⟨"tok", .Buy, 45/100, 5⟩).2.2.2.2.2.1
      rfl).1,
    (order_record_fields 7 8 9 1000 11 22 ⟨"tok", .Buy, 45/100, 5⟩).1⟩

end ArbEngine
